import Mathlib

/-!
Verification of the Cartolex canvas module: graph lifecycle and
synchronization layer.

This file embeds, in Lean, the data model and operations of the canvas
module: the bidirectional Format Mapper (canvas/src/api/serialization.ts),
the initial-graph resolution of the App component (canvas/src/App.tsx),
the workspace store (the zustand save-status store), the debounced
auto-save controller (canvas/src/hooks/useAutoSave.ts) and the module
lifecycle manager (the mountCanvas entry point).

Modelling conventions:
* Machine floats (2-D positions, `Math.random()` samples) are modelled as
  rationals; the coordinates are only copied, compared and multiplied by
  constants, so no floating-point rounding behaviour is relevant.
* The opaque per-node data payload (a JS object of string keys to
  arbitrary values) is modelled as an association list of string keys to
  a small JSON-like value type; the code never inspects payloads, it only
  copies them.
* JS optionality (a field that may be `undefined`) is modelled with
  `Option`; the JS `x ?? d` operator becomes `Option.getD`, and the JS
  `s || d` operator on strings (which also replaces the empty string)
  becomes `orFalsy` below.  Fields the code defensively guards with
  `?? / ||` are given `Option` types even where the TypeScript interface
  declares them required, so the guards in the source stay live.
* `Math.random()` is modelled by an explicit sample stream
  `rnd : Nat → ℚ × ℚ`, giving the pair of samples used for the node at a
  given list position when its stored position is absent.
* Timers and the asynchronous transport are modelled operationally: an
  explicit model state records the pending debounce timer (its fire time
  and captured graph), the queue of in-flight transport calls, and logs
  of issued persist attempts and host `onSave` invocations.
-/

/-- A JSON-like scalar value, standing in for the arbitrary values of the
opaque node data payload. -/
inductive JVal where
  | jstr : String → JVal
  | jnum : ℚ → JVal
  | jbool : Bool → JVal
  | jnull : JVal
  deriving DecidableEq

/-- The opaque node data payload: an open mapping of string keys to
values (`Record<string, unknown>` in the source). -/
abbrev Content := List (String × JVal)

/-- A 2-D canvas position (`{ x, y }` in the source). -/
structure Pos where
  x : ℚ
  y : ℚ
  deriving DecidableEq

/-- Editor-shape node (React Flow node): `{ id, type, position, data }`.
The `type` tag is optional in the rendering engine's node type; the
position is always present on editor nodes. -/
structure CanvasNodeType where
  id : String
  type : Option String
  position : Pos
  data : Content
  deriving DecidableEq

/-- Editor-shape edge (React Flow edge): `{ id, source, target, type }`. -/
structure CanvasEdgeType where
  id : String
  source : String
  target : String
  type : Option String
  deriving DecidableEq

/-- Editor-shape graph: ordered nodes plus ordered edges. -/
structure CanvasGraph where
  nodes : List CanvasNodeType
  edges : List CanvasEdgeType
  deriving DecidableEq

/-- Backend persisted node (`CanvasNodeBackend` in api/types.ts):
`{ node_id, type, content, position? }`.  `content` is given an `Option`
type because `fromBackendFormat` guards it with `?? {}`. -/
structure CanvasNodeBackend where
  node_id : String
  type : String
  content : Option Content
  position : Option Pos
  deriving DecidableEq

/-- Backend persisted edge (`CanvasEdgeBackend` in api/types.ts). -/
structure CanvasEdgeBackend where
  edge_id : String
  source_node_id : String
  target_node_id : String
  type : String
  deriving DecidableEq

/-- Backend save payload (`WorkspaceSavePayload` in api/types.ts): both
collections are always present. -/
structure WorkspaceSavePayload where
  nodes : List CanvasNodeBackend
  edges : List CanvasEdgeBackend
  deriving DecidableEq

/-- Backend workspace detail (`WorkspaceDetailData` in api/types.ts).
The node and edge collections are given `Option` types because
`fromBackendFormat` guards them with `|| []`. -/
structure WorkspaceDetailData where
  workspace_id : String
  name : String
  description : Option String
  nodes : Option (List CanvasNodeBackend)
  edges : Option (List CanvasEdgeBackend)
  created_at : String
  updated_at : String
  deriving DecidableEq

/-- The JS `s || d` operator on an optional string: yields the default
when the string is absent or empty (both are falsy in JS). -/
def orFalsy (s : Option String) (d : String) : String :=
  match s with
  | none => d
  | some v => if v = "" then d else v

/-- `toBackendFormat` from api/serialization.ts: convert React Flow graph
state to the backend save payload.  Always includes both collections. -/
def toBackendFormat (nodes : List CanvasNodeType) (edges : List CanvasEdgeType) :
    WorkspaceSavePayload :=
  { nodes := nodes.map fun node =>
      { node_id := node.id
        type := orFalsy node.type "untyped"
        content := some node.data
        position := some node.position }
    edges := edges.map fun edge =>
      { edge_id := edge.id
        source_node_id := edge.source
        target_node_id := edge.target
        type := orFalsy edge.type "similar_to" } }

/-- The position synthesized for a backend node missing coordinates:
`{ x: Math.random() * 500, y: Math.random() * 500 }`, with the two
`Math.random()` samples drawn from the explicit sample stream. -/
def synthPos (rnd : Nat → ℚ × ℚ) (i : Nat) : Pos :=
  { x := (rnd i).1 * 500, y := (rnd i).2 * 500 }

/-- The node half of `fromBackendFormat`: each backend node becomes an
editor node with the generic `basic` rendering type; an absent position
is replaced by a synthesized one, an absent content by the empty
mapping.  The counter `i` tracks the node's position in the list, used
to index the random sample stream. -/
def fromBackendNodes (rnd : Nat → ℚ × ℚ) : Nat → List CanvasNodeBackend → List CanvasNodeType
  | _, [] => []
  | i, n :: rest =>
    { id := n.node_id
      type := some "basic"
      position := n.position.getD (synthPos rnd i)
      data := n.content.getD [] } :: fromBackendNodes rnd (i + 1) rest

/-- `fromBackendFormat` from api/serialization.ts: convert a backend
workspace detail to React Flow graph state.  Total: absent optional
fields are replaced by defaults, never rejected. -/
def fromBackendFormat (rnd : Nat → ℚ × ℚ) (workspace : WorkspaceDetailData) :
    CanvasGraph :=
  { nodes := fromBackendNodes rnd 0 (workspace.nodes.getD [])
    edges := (workspace.edges.getD []).map fun edge =>
      { id := edge.edge_id
        source := edge.source_node_id
        target := edge.target_node_id
        type := some "default" } }

/-- View a save payload as mapper input.  JS is structurally typed and
`fromBackendFormat` reads only the `nodes` and `edges` fields, so
applying it to a save payload is meaningful; the remaining fields are
fillers that the mapper never reads. -/
def WorkspaceSavePayload.asDetail (p : WorkspaceSavePayload) : WorkspaceDetailData :=
  { workspace_id := ""
    name := ""
    description := none
    nodes := some p.nodes
    edges := some p.edges
    created_at := ""
    updated_at := "" }

/-- The single default starter node of App.tsx (`defaultNodes`). -/
def defaultNodes : List CanvasNodeType :=
  [{ id := "1"
     type := some "basic"
     position := { x := 250, y := 100 }
     data := [("label", JVal.jstr "Start"), ("content", JVal.jstr "Begin your workflow here")] }]

/-- The default edge list of App.tsx (`defaultEdges`). -/
def defaultEdges : List CanvasEdgeType := []

/-- The runtime shape of the `initialGraph` argument: either an
editor-shape graph or a backend workspace detail.  App.tsx detects the
backend shape by the presence of the `workspace_id` field
(JS `'workspace_id' in initialGraph`); in the embedding that structural
test is the constructor of this sum. -/
inductive InitialGraphArg where
  | editor : CanvasGraph → InitialGraphArg
  | backend : WorkspaceDetailData → InitialGraphArg
  deriving DecidableEq

/-- `resolveInitialGraph` from App.tsx: derive the React Flow
nodes/edges the App starts from.  No argument yields the default starter
graph; backend data is converted with the Format Mapper; editor data is
used as is; in both supplied cases an empty node list is replaced by the
default starter node while the edge list is kept. -/
def resolveInitialGraph (rnd : Nat → ℚ × ℚ) : Option InitialGraphArg → CanvasGraph
  | none => { nodes := defaultNodes, edges := defaultEdges }
  | some (InitialGraphArg.backend w) =>
    let converted := fromBackendFormat rnd w
    { nodes := if converted.nodes.isEmpty then defaultNodes else converted.nodes
      edges := converted.edges }
  | some (InitialGraphArg.editor g) =>
    { nodes := if g.nodes.isEmpty then defaultNodes else g.nodes
      edges := g.edges }

/-- The save-status states of the workspace store. -/
inductive SaveStatus where
  | saved
  | saving
  | unsaved
  | error
  deriving DecidableEq

/-- The zustand workspace store state (store/workspaceStore.ts).
`lastSavedAt` (a JS `Date`) is modelled as an abstract timestamp. -/
structure WorkspaceState where
  workspaceId : Option String
  saveStatus : SaveStatus
  lastSavedAt : Option Nat
  lastError : Option String
  deriving DecidableEq

/-- The initial store state: no workspace, status `saved`, no timestamp,
no error. -/
def initialWorkspaceState : WorkspaceState :=
  { workspaceId := none, saveStatus := SaveStatus.saved, lastSavedAt := none, lastError := none }

/-- `setWorkspaceId` store action. -/
def setWorkspaceId (id : String) (s : WorkspaceState) : WorkspaceState :=
  { s with workspaceId := some id }

/-- `setSaveStatus` store action. -/
def setSaveStatus (st : SaveStatus) (s : WorkspaceState) : WorkspaceState :=
  { s with saveStatus := st }

/-- `markSaved` store action: status `saved`, fresh timestamp, error
cleared.  The current time is passed explicitly (`new Date()`). -/
def markSaved (now : Nat) (s : WorkspaceState) : WorkspaceState :=
  { s with saveStatus := SaveStatus.saved, lastSavedAt := some now, lastError := none }

/-- `markError` store action: status `error`, message recorded. -/
def markError (e : String) (s : WorkspaceState) : WorkspaceState :=
  { s with saveStatus := SaveStatus.error, lastError := some e }

/-- `markUnsaved` store action: moves to `unsaved` unless a save is in
flight, in which case the state is returned unchanged. -/
def markUnsaved (s : WorkspaceState) : WorkspaceState :=
  if s.saveStatus = SaveStatus.saving then s else { s with saveStatus := SaveStatus.unsaved }

/-- One store transition, labelled by the event that fires it: a graph
change, the controller beginning a persist attempt, a successful persist
completion, or a failed one. -/
inductive StoreStep : WorkspaceState → WorkspaceState → Prop where
  | change (s : WorkspaceState) : StoreStep s (markUnsaved s)
  | beginSave (s : WorkspaceState) : StoreStep s (setSaveStatus SaveStatus.saving s)
  | succeed (s : WorkspaceState) (t : Nat) : StoreStep s (markSaved t s)
  | fail (s : WorkspaceState) (e : String) : StoreStep s (markError e s)

/-- Operational state of one canvas session's auto-save machinery
(hooks/useAutoSave.ts plus the store it drives).  `workspaceId` is the
hook's prop; `isFirstRender` is the hook's first-render ref; `timer` is
the pending debounce timer with its fire time and the graph captured by
the timer callback's closure; `inFlight` is the queue of issued,
not-yet-completed transport calls, each holding its serialized payload;
`persistLog` records every transport call ever issued (time and
payload); `onSaveLog` records every invocation of the host `onSave`
callback. -/
structure AutoSaveModel where
  workspaceId : Option String
  store : WorkspaceState
  isFirstRender : Bool
  timer : Option (Nat × CanvasGraph)
  inFlight : List WorkspaceSavePayload
  persistLog : List (Nat × WorkspaceSavePayload)
  onSaveLog : List CanvasGraph
  deriving DecidableEq

/-- A fresh session model for a given (possibly absent) workspace id. -/
def initAutoSave (wsId : Option String) : AutoSaveModel :=
  { workspaceId := wsId
    store := initialWorkspaceState
    isFirstRender := true
    timer := none
    inFlight := []
    persistLog := []
    onSaveLog := [] }

/-- `doSave` from useAutoSave.ts: returns immediately when no workspace
id is bound; otherwise sets status `saving`, serializes the current
graph with the Format Mapper and issues the transport call (which joins
the in-flight queue and the persist log). -/
def doSave (t : Nat) (g : CanvasGraph) (m : AutoSaveModel) : AutoSaveModel :=
  match m.workspaceId with
  | none => m
  | some _ =>
    let payload := toBackendFormat g.nodes g.edges
    { m with
      store := setSaveStatus SaveStatus.saving m.store
      inFlight := m.inFlight ++ [payload]
      persistLog := m.persistLog ++ [(t, payload)] }

/-- Completion of the oldest in-flight transport call: on success the
store is marked saved, on failure the error is recorded.  With no
in-flight call nothing happens. -/
def completeSave (now : Nat) (ok : Bool) (e : String) (m : AutoSaveModel) : AutoSaveModel :=
  match m.inFlight with
  | [] => m
  | _ :: rest =>
    { m with
      inFlight := rest
      store := if ok then markSaved now m.store else markError e m.store }

/-- The change-watching effect of useAutoSave.ts, run when the graph
changes at time `t` with new graph `g`.  The first run (the initial
load) only clears the first-render flag; with no workspace id nothing
else happens; otherwise the store is marked unsaved, any pending timer
is cancelled and a new one is armed `debounceMs` after the change,
capturing the changed graph. -/
def changeEffect (t : Nat) (g : CanvasGraph) (debounceMs : Nat) (m : AutoSaveModel) :
    AutoSaveModel :=
  if m.isFirstRender then { m with isFirstRender := false }
  else
    match m.workspaceId with
    | none => m
    | some _ =>
      { m with
        store := markUnsaved m.store
        timer := some (t + debounceMs, g) }

/-- The debounce timer firing: the timer is cleared and `doSave` runs at
the timer's fire time on the graph captured when it was armed. -/
def fireTimer (m : AutoSaveModel) : AutoSaveModel :=
  match m.timer with
  | none => m
  | some (tf, g) => doSave tf g { m with timer := none }

/-- `saveNow` from useAutoSave.ts: cancels any pending timer and saves
the current graph immediately. -/
def saveNow (t : Nat) (g : CanvasGraph) (m : AutoSaveModel) : AutoSaveModel :=
  doSave t g { m with timer := none }

/-- `handleSave` from App.tsx (the Save button): calls `saveNow` when a
workspace id is bound, then, when the host supplied an `onSave`
callback, invokes it synchronously with the current graph. -/
def handleSave (t : Nat) (g : CanvasGraph) (hasOnSave : Bool) (m : AutoSaveModel) :
    AutoSaveModel :=
  let m1 := match m.workspaceId with
    | some _ => saveNow t g m
    | none => m
  if hasOnSave then { m1 with onSaveLog := m1.onSaveLog ++ [g] } else m1

/-- Fire the pending timer if its fire time has been reached by time
`t`. -/
def fireDue (t : Nat) (m : AutoSaveModel) : AutoSaveModel :=
  match m.timer with
  | none => m
  | some (tf, g) => if tf ≤ t then doSave tf g { m with timer := none } else m

/-- Run a trace of timed graph changes: before each change any timer due
by that change's time fires, then the change effect runs. -/
def runTrace (debounceMs : Nat) : AutoSaveModel → List (Nat × CanvasGraph) → AutoSaveModel
  | m, [] => m
  | m, (t, g) :: rest => runTrace debounceMs (changeEffect t g debounceMs (fireDue t m)) rest

/-- Run a trace of timed graph changes and then let time pass with no
further changes, so the last armed timer (if any) fires. -/
def runToQuiescence (debounceMs : Nat) (m : AutoSaveModel) (trace : List (Nat × CanvasGraph)) :
    AutoSaveModel :=
  fireTimer (runTrace debounceMs m trace)

/-- Events recorded by the module lifecycle model: a React root being
unmounted, and a render of the App with the given `initialGraph` prop. -/
inductive ModuleEvent where
  | unmounted
  | rendered : Option InitialGraphArg → ModuleEvent
  deriving DecidableEq

/-- Module-level state of the entry point (the mountCanvas module):
whether a React root currently exists (`currentRoot`), the module's
stored graph snapshot (`currentGraph`), and a log of lifecycle events. -/
structure ModuleState where
  currentRoot : Bool
  currentGraph : InitialGraphArg
  log : List ModuleEvent
  deriving DecidableEq

/-- The module's initial state: no root, empty graph snapshot. -/
def initModuleState : ModuleState :=
  { currentRoot := false
    currentGraph := InitialGraphArg.editor { nodes := [], edges := [] }
    log := [] }

/-- The mount-time error: no element matches the container id. -/
inductive MountError where
  | containerNotFound : String → MountError
  deriving DecidableEq

/-- Mount options (`CanvasMountOptions` in types.ts). -/
structure CanvasMountOptions where
  containerId : String
  workspaceId : Option String
  initialGraph : Option InitialGraphArg
  hasOnSave : Bool
  deriving DecidableEq

/-- `mountCanvas` from the module entry point.  The DOM is modelled by
the predicate `dom` telling which container ids resolve to an element.
When the lookup fails the call returns the `ContainerNotFound` error and
the module state unchanged — in particular no teardown of an existing
session has happened.  When it succeeds, any existing root is unmounted
first, the stored graph becomes the supplied initial graph (or the empty
graph when absent), and the App is rendered with that graph. -/
def mountCanvas (dom : String → Bool) (opts : CanvasMountOptions) (s : ModuleState) :
    ModuleState × Option MountError :=
  if dom opts.containerId then
    let s1 := if s.currentRoot then { s with log := s.log ++ [ModuleEvent.unmounted] } else s
    let g := opts.initialGraph.getD (InitialGraphArg.editor { nodes := [], edges := [] })
    ({ currentRoot := true
       currentGraph := g
       log := s1.log ++ [ModuleEvent.rendered (some g)] }, none)
  else
    (s, some (MountError.containerNotFound opts.containerId))

/-- `getGraph` of the returned canvas API: the module's stored graph
snapshot. -/
def getGraph (s : ModuleState) : InitialGraphArg := s.currentGraph

/-- `setGraph` of the canvas API: replaces the stored snapshot and, when
a root exists, re-renders the App with the new graph as its
`initialGraph` prop. -/
def setGraph (g : InitialGraphArg) (s : ModuleState) : ModuleState :=
  let s1 := { s with currentGraph := g }
  if s.currentRoot then { s1 with log := s1.log ++ [ModuleEvent.rendered (some g)] } else s1

/-- `clear` of the canvas API: `setGraph` with the empty graph. -/
def clearGraph (s : ModuleState) : ModuleState :=
  setGraph (InitialGraphArg.editor { nodes := [], edges := [] }) s

/-- `unmount` of the canvas API: releases the root when one exists,
otherwise a no-op. -/
def unmountCanvas (s : ModuleState) : ModuleState :=
  if s.currentRoot then
    { s with currentRoot := false, log := s.log ++ [ModuleEvent.unmounted] }
  else s

/-- The graph the App derives from its props: `resolveInitialGraph`
applied to the `initialGraph` prop of the last render, which the entry
point always sets to the module's stored graph. -/
def renderedGraph (rnd : Nat → ℚ × ℚ) (s : ModuleState) : CanvasGraph :=
  resolveInitialGraph rnd (some s.currentGraph)

/-- Convenience lemma: the node half of the round trip.  Converting
editor nodes to backend shape and back yields nodes with the same
identifiers, positions and data, with the type tag collapsed to the
generic rendering type; no random samples are consumed because every
converted node carries a position. -/
theorem fromBackendNodes_map_toBackend (rnd : Nat → ℚ × ℚ) (nodes : List CanvasNodeType)
    (i : Nat) :
    fromBackendNodes rnd i (nodes.map fun node =>
        ({ node_id := node.id
           type := orFalsy node.type "untyped"
           content := some node.data
           position := some node.position } : CanvasNodeBackend))
      = nodes.map fun node =>
          { id := node.id
            type := some "basic"
            position := node.position
            data := node.data } := by
  induction nodes generalizing i with
  | nil => rfl
  | cons n rest ih => simp [fromBackendNodes, ih]

/-- Claim C1: for every list of editor nodes and edges in which every
node has a populated type tag (positions are always populated on editor
nodes in this embedding, as in the rendering engine's node type) and
every edge has a populated type tag and references present nodes,
`fromBackendFormat` applied to the payload produced by `toBackendFormat`
yields a graph with the same node identifiers, the same node positions,
and the same edge identifiers with the same source/target pairs. -/
theorem C1_roundtrip (rnd : Nat → ℚ × ℚ) (nodes : List CanvasNodeType)
    (edges : List CanvasEdgeType)
    (_hnode : ∀ n ∈ nodes, n.type ≠ none)
    (_hedge : ∀ e ∈ edges, e.type ≠ none
      ∧ (∃ n ∈ nodes, n.id = e.source) ∧ (∃ n ∈ nodes, n.id = e.target)) :
    ((fromBackendFormat rnd (toBackendFormat nodes edges).asDetail).nodes.map CanvasNodeType.id
        = nodes.map CanvasNodeType.id)
    ∧ ((fromBackendFormat rnd (toBackendFormat nodes edges).asDetail).nodes.map
          CanvasNodeType.position
        = nodes.map CanvasNodeType.position)
    ∧ ((fromBackendFormat rnd (toBackendFormat nodes edges).asDetail).edges.map
          (fun e => (e.id, e.source, e.target))
        = edges.map fun e => (e.id, e.source, e.target)) := by
  refine ⟨?_, ?_, ?_⟩ <;>
    simp [fromBackendFormat, toBackendFormat, WorkspaceSavePayload.asDetail,
      fromBackendNodes_map_toBackend, List.map_map, Function.comp]

/-- Witness for C1 at a concrete two-node, one-edge graph with populated
type tags and dangling-free edges. -/
theorem C1_roundtrip_witness :
    ((∀ n ∈ [({ id := "a", type := some "basic", position := { x := 1, y := 2 }, data := [] } : CanvasNodeType),
              { id := "b", type := some "basic", position := { x := 3, y := 4 }, data := [("k", JVal.jnum 7)] }],
        n.type ≠ none)
      ∧ (∀ e ∈ [({ id := "e1", source := "a", target := "b", type := some "similar_to" } : CanvasEdgeType)],
          e.type ≠ none
            ∧ (∃ n ∈ [({ id := "a", type := some "basic", position := { x := 1, y := 2 }, data := [] } : CanvasNodeType),
                      { id := "b", type := some "basic", position := { x := 3, y := 4 }, data := [("k", JVal.jnum 7)] }],
                n.id = e.source)
            ∧ (∃ n ∈ [({ id := "a", type := some "basic", position := { x := 1, y := 2 }, data := [] } : CanvasNodeType),
                      { id := "b", type := some "basic", position := { x := 3, y := 4 }, data := [("k", JVal.jnum 7)] }],
                n.id = e.target)))
    ∧ ((fromBackendFormat (fun _ => (0, 0))
          (toBackendFormat
            [{ id := "a", type := some "basic", position := { x := 1, y := 2 }, data := [] },
             { id := "b", type := some "basic", position := { x := 3, y := 4 }, data := [("k", JVal.jnum 7)] }]
            [{ id := "e1", source := "a", target := "b", type := some "similar_to" }]).asDetail).nodes.map
            CanvasNodeType.id
          = List.map CanvasNodeType.id
            [{ id := "a", type := some "basic", position := { x := 1, y := 2 }, data := [] },
             { id := "b", type := some "basic", position := { x := 3, y := 4 }, data := [("k", JVal.jnum 7)] }]) :=
  ⟨⟨by decide, by decide⟩, (C1_roundtrip (fun _ => (0, 0)) _ _ (by decide) (by decide)).1⟩

/-- Claim C2: `toBackendFormat` maps each node to a persisted node with
content the node's data payload verbatim, position copied through, and
the sentinel "untyped" tag substituted when the node type tag is absent;
each edge to a persisted edge with the sentinel "similar_to" tag when
its type tag is absent; both output collections are always present, and
in particular `toBackendFormat [] []` is the payload with two empty
collections. -/
theorem C2_toBackendFormat_fields :
    (∀ (nodes : List CanvasNodeType) (edges : List CanvasEdgeType),
      List.Forall₂
        (fun (n : CanvasNodeType) (b : CanvasNodeBackend) =>
          b.node_id = n.id ∧ b.content = some n.data ∧ b.position = some n.position
            ∧ (n.type = none → b.type = "untyped"))
        nodes (toBackendFormat nodes edges).nodes)
    ∧ (∀ (nodes : List CanvasNodeType) (edges : List CanvasEdgeType),
      List.Forall₂
        (fun (e : CanvasEdgeType) (b : CanvasEdgeBackend) =>
          b.edge_id = e.id ∧ b.source_node_id = e.source ∧ b.target_node_id = e.target
            ∧ (e.type = none → b.type = "similar_to"))
        edges (toBackendFormat nodes edges).edges)
    ∧ toBackendFormat [] [] = { nodes := [], edges := [] } := by
  refine ⟨fun nodes edges => ?_, fun nodes edges => ?_, rfl⟩
  · simp only [toBackendFormat]
    refine List.forall₂_map_right_iff.mpr (List.forall₂_same.mpr fun n _ => ?_)
    exact ⟨rfl, rfl, rfl, fun ht => by simp [orFalsy, ht]⟩
  · simp only [toBackendFormat]
    refine List.forall₂_map_right_iff.mpr (List.forall₂_same.mpr fun e _ => ?_)
    exact ⟨rfl, rfl, rfl, fun ht => by simp [orFalsy, ht]⟩

/-- Witness for C2: the node conjunct applied at a concrete one-node
list with the type tag absent. -/
theorem C2_toBackendFormat_fields_witness :
    List.Forall₂
      (fun (n : CanvasNodeType) (b : CanvasNodeBackend) =>
        b.node_id = n.id ∧ b.content = some n.data ∧ b.position = some n.position
          ∧ (n.type = none → b.type = "untyped"))
      [{ id := "n1", type := none, position := { x := 5, y := 6 }, data := [] }]
      (toBackendFormat [{ id := "n1", type := none, position := { x := 5, y := 6 }, data := [] }] []).nodes :=
  C2_toBackendFormat_fields.1 _ []

/-- Convenience lemma for C3: each backend node converts to an editor
node keeping its identifier, collapsing the type tag to the generic
rendering type, defaulting absent content to the empty mapping, keeping
a present position and synthesizing a position inside the default
canvas area when absent, provided every random sample lies in the unit
interval. -/
theorem fromBackendNodes_forall₂ (rnd : Nat → ℚ × ℚ)
    (hr : ∀ i, 0 ≤ (rnd i).1 ∧ (rnd i).1 < 1 ∧ 0 ≤ (rnd i).2 ∧ (rnd i).2 < 1)
    (ns : List CanvasNodeBackend) (i : Nat) :
    List.Forall₂
      (fun (n : CanvasNodeBackend) (m : CanvasNodeType) =>
        m.id = n.node_id ∧ m.type = some "basic" ∧ m.data = n.content.getD []
          ∧ (∀ p, n.position = some p → m.position = p)
          ∧ (n.position = none →
              0 ≤ m.position.x ∧ m.position.x < 500 ∧ 0 ≤ m.position.y ∧ m.position.y < 500))
      ns (fromBackendNodes rnd i ns) := by
  induction ns generalizing i with
  | nil => exact List.Forall₂.nil
  | cons n rest ih =>
    simp only [fromBackendNodes]
    refine List.Forall₂.cons ⟨rfl, rfl, rfl, ?_, ?_⟩ (ih (i + 1))
    · intro p hp
      simp [hp]
    · intro hp
      have h := hr i
      simp only [hp, Option.getD_none, synthPos]
      exact ⟨mul_nonneg h.1 (by norm_num),
        mul_lt_of_lt_one_left (by norm_num) h.2.1,
        mul_nonneg h.2.2.1 (by norm_num),
        mul_lt_of_lt_one_left (by norm_num) h.2.2.2⟩

/-- Claim C3: `fromBackendFormat` maps each persisted node to an editor
node keeping its identifier, taking its content verbatim (or the empty
mapping when absent), keeping its position or synthesizing one inside
the bounded default canvas area when absent, and collapsing the type tag
to the single generic rendering type; each persisted edge keeps its
identifier, source and target under the single generic edge type.  The
mapper is a total function of this embedding, so it never fails on
input with missing optional fields. -/
theorem C3_fromBackendFormat_defaults (rnd : Nat → ℚ × ℚ) (w : WorkspaceDetailData)
    (hr : ∀ i, 0 ≤ (rnd i).1 ∧ (rnd i).1 < 1 ∧ 0 ≤ (rnd i).2 ∧ (rnd i).2 < 1) :
    List.Forall₂
      (fun (n : CanvasNodeBackend) (m : CanvasNodeType) =>
        m.id = n.node_id ∧ m.type = some "basic" ∧ m.data = n.content.getD []
          ∧ (∀ p, n.position = some p → m.position = p)
          ∧ (n.position = none →
              0 ≤ m.position.x ∧ m.position.x < 500 ∧ 0 ≤ m.position.y ∧ m.position.y < 500))
      (w.nodes.getD []) (fromBackendFormat rnd w).nodes
    ∧ (fromBackendFormat rnd w).edges
        = (w.edges.getD []).map fun e =>
            { id := e.edge_id
              source := e.source_node_id
              target := e.target_node_id
              type := some "default" } :=
  ⟨fromBackendNodes_forall₂ rnd hr _ 0, rfl⟩

/-- Witness for C3 at the all-zero sample stream and a concrete
workspace holding a node with both optional fields absent, a fully
populated node, and one edge. -/
theorem C3_fromBackendFormat_defaults_witness :
    (∀ i : Nat, 0 ≤ ((fun _ : Nat => ((0 : ℚ), (0 : ℚ))) i).1
        ∧ ((fun _ : Nat => ((0 : ℚ), (0 : ℚ))) i).1 < 1
        ∧ 0 ≤ ((fun _ : Nat => ((0 : ℚ), (0 : ℚ))) i).2
        ∧ ((fun _ : Nat => ((0 : ℚ), (0 : ℚ))) i).2 < 1)
    ∧ (fromBackendFormat (fun _ => ((0 : ℚ), (0 : ℚ)))
          { workspace_id := "ws1", name := "w", description := none,
            nodes := some [{ node_id := "a", type := "note", content := none, position := none },
                           { node_id := "b", type := "note",
                             content := some [("k", JVal.jnum 3)],
                             position := some { x := 1, y := 2 } }],
            edges := some [{ edge_id := "e", source_node_id := "a", target_node_id := "b",
                             type := "similar_to" }],
            created_at := "", updated_at := "" }).edges
        = List.map (fun (e : CanvasEdgeBackend) =>
            ({ id := e.edge_id
               source := e.source_node_id
               target := e.target_node_id
               type := some "default" } : CanvasEdgeType))
          [{ edge_id := "e", source_node_id := "a", target_node_id := "b", type := "similar_to" }] :=
  ⟨fun _ => ⟨le_refl 0, zero_lt_one, le_refl 0, zero_lt_one⟩,
    (C3_fromBackendFormat_defaults (fun _ => ((0 : ℚ), (0 : ℚ)))
      { workspace_id := "ws1", name := "w", description := none,
        nodes := some [{ node_id := "a", type := "note", content := none, position := none },
                       { node_id := "b", type := "note",
                         content := some [("k", JVal.jnum 3)],
                         position := some { x := 1, y := 2 } }],
        edges := some [{ edge_id := "e", source_node_id := "a", target_node_id := "b",
                         type := "similar_to" }],
        created_at := "", updated_at := "" }
      (fun _ => ⟨le_refl 0, zero_lt_one, le_refl 0, zero_lt_one⟩)).2⟩

/-- Claim C4: mounting into a container identifier that matches no
element fails with the `ContainerNotFound` error and leaves the module
state — including any previously mounted session's root, stored graph
and event log — completely unchanged; in particular no teardown event
was recorded, so teardown of an existing session can only happen after
the container lookup succeeds. -/
theorem C4_mount_missing_container (dom : String → Bool) (opts : CanvasMountOptions)
    (s : ModuleState) (h : dom opts.containerId = false) :
    mountCanvas dom opts s = (s, some (MountError.containerNotFound opts.containerId))
    ∧ (mountCanvas dom opts s).1.log = s.log
    ∧ getGraph (mountCanvas dom opts s).1 = getGraph s := by
  simp [mountCanvas, h, getGraph]

/-- Witness for C4: a DOM with no elements, a concrete container id, and
a previously mounted session. -/
theorem C4_mount_missing_container_witness :
    ((fun _ : String => false) "missing" = false)
    ∧ mountCanvas (fun _ => false)
        { containerId := "missing", workspaceId := none, initialGraph := none, hasOnSave := false }
        { currentRoot := true
          currentGraph := InitialGraphArg.editor { nodes := defaultNodes, edges := [] }
          log := [ModuleEvent.rendered (some (InitialGraphArg.editor { nodes := defaultNodes, edges := [] }))] }
      = ({ currentRoot := true
           currentGraph := InitialGraphArg.editor { nodes := defaultNodes, edges := [] }
           log := [ModuleEvent.rendered (some (InitialGraphArg.editor { nodes := defaultNodes, edges := [] }))] },
         some (MountError.containerNotFound "missing")) :=
  ⟨rfl,
    (C4_mount_missing_container (fun _ => false)
      { containerId := "missing", workspaceId := none, initialGraph := none, hasOnSave := false }
      { currentRoot := true
        currentGraph := InitialGraphArg.editor { nodes := defaultNodes, edges := [] }
        log := [ModuleEvent.rendered (some (InitialGraphArg.editor { nodes := defaultNodes, edges := [] }))] }
      rfl).1⟩

/-- Counterexample to claim C5 as stated: mounting with no initialGraph
argument stores the empty graph as the session snapshot, so a subsequent
`getGraph` returns the empty graph, not the one-node default starter
graph the claim promises. -/
theorem C5_counterexample :
    getGraph (mountCanvas (fun _ => true)
        { containerId := "canvas-root", workspaceId := none, initialGraph := none,
          hasOnSave := false } initModuleState).1
      = InitialGraphArg.editor { nodes := [], edges := [] }
    ∧ InitialGraphArg.editor { nodes := [], edges := [] }
        ≠ InitialGraphArg.editor { nodes := defaultNodes, edges := defaultEdges } :=
  ⟨rfl, by decide⟩

/-- Claim C5 as amended: when mount is called with no initialGraph, the
rendered graph is initialized to the single default starter node, but
the session snapshot returned by `getGraph` is the empty graph; when
initialGraph is supplied, a backend-shaped input (selected by the
presence of the persisted-workspace identifier field) is run through the
Format Mapper and, when the mapped node list is nonempty, used as the
rendered graph; an editor-shaped input with a nonempty node list is used
directly. -/
theorem C5_amended_mount_init (dom : String → Bool) (cid : String) (rnd : Nat → ℚ × ℚ)
    (w : WorkspaceDetailData) (g : CanvasGraph) (s : ModuleState)
    (hdom : dom cid = true)
    (hw : (fromBackendFormat rnd w).nodes ≠ [])
    (hg : g.nodes ≠ []) :
    (renderedGraph rnd (mountCanvas dom
          { containerId := cid, workspaceId := none, initialGraph := none, hasOnSave := false }
          s).1
        = { nodes := defaultNodes, edges := defaultEdges }
      ∧ getGraph (mountCanvas dom
            { containerId := cid, workspaceId := none, initialGraph := none, hasOnSave := false }
            s).1
          = InitialGraphArg.editor { nodes := [], edges := [] })
    ∧ renderedGraph rnd (mountCanvas dom
          { containerId := cid, workspaceId := none,
            initialGraph := some (InitialGraphArg.backend w), hasOnSave := false } s).1
        = fromBackendFormat rnd w
    ∧ renderedGraph rnd (mountCanvas dom
          { containerId := cid, workspaceId := none,
            initialGraph := some (InitialGraphArg.editor g), hasOnSave := false } s).1
        = { nodes := g.nodes, edges := g.edges } := by
  have hwe : (fromBackendFormat rnd w).nodes.isEmpty = false := by
    cases hn : (fromBackendFormat rnd w).nodes with
    | nil => exact absurd hn hw
    | cons a l => rfl
  have hge : g.nodes.isEmpty = false := by
    cases hn : g.nodes with
    | nil => exact absurd hn hg
    | cons a l => rfl
  refine ⟨⟨?_, ?_⟩, ?_, ?_⟩ <;>
    simp [mountCanvas, hdom, renderedGraph, resolveInitialGraph, getGraph, hwe, hge,
      defaultEdges]

/-- Witness for C5 as amended, at a concrete DOM, workspace and editor
graph. -/
theorem C5_amended_mount_init_witness :
    ((fun _ : String => true) "c" = true)
    ∧ ((fromBackendFormat (fun _ => ((0 : ℚ), (0 : ℚ)))
          { workspace_id := "ws1", name := "w", description := none,
            nodes := some [{ node_id := "a", type := "note",
                             content := some [], position := some { x := 1, y := 2 } }],
            edges := some [], created_at := "", updated_at := "" }).nodes ≠ [])
    ∧ (({ nodes := defaultNodes, edges := [] } : CanvasGraph).nodes ≠ [])
    ∧ renderedGraph (fun _ => ((0 : ℚ), (0 : ℚ)))
        (mountCanvas (fun _ => true)
          { containerId := "c", workspaceId := none, initialGraph := none, hasOnSave := false }
          initModuleState).1
      = { nodes := defaultNodes, edges := defaultEdges } :=
  ⟨rfl, by decide, by decide,
    ((C5_amended_mount_init (fun _ => true) "c" (fun _ => ((0 : ℚ), (0 : ℚ)))
      { workspace_id := "ws1", name := "w", description := none,
        nodes := some [{ node_id := "a", type := "note",
                         content := some [], position := some { x := 1, y := 2 } }],
        edges := some [], created_at := "", updated_at := "" }
      { nodes := defaultNodes, edges := [] }
      initModuleState rfl (by decide) (by decide)).1).1⟩

/-- Claim C6: the first graph change (the initial load) does not trigger
a save; every later change (with a workspace bound) drives the store's
unsaved transition, cancels any pending persist timer and schedules a
new persist 5000 ms after that change; consequently, for changes at
t = 0 ms (the initial load), t = 1000 ms and t = 2000 ms with no further
changes, exactly one persist attempt fires, at t = 7000 ms, and it
serializes the graph state as of the latest change (t = 2000 ms). -/
theorem C6_debounce (w : String) (g0 g1 g2 : CanvasGraph) (t : Nat) (g : CanvasGraph)
    (m : AutoSaveModel) (hfr : m.isFirstRender = false) (hws : m.workspaceId.isSome) :
    (runToQuiescence 5000 (initAutoSave (some w)) [(0, g0), (1000, g1), (2000, g2)]).persistLog
        = [(7000, toBackendFormat g2.nodes g2.edges)]
    ∧ (runToQuiescence 5000 (initAutoSave (some w)) [(0, g0)]).persistLog = []
    ∧ (changeEffect t g 5000 m).store = markUnsaved m.store
    ∧ (changeEffect t g 5000 m).timer = some (t + 5000, g) := by
  obtain ⟨wid, hwid⟩ := Option.isSome_iff_exists.mp hws
  refine ⟨rfl, rfl, ?_, ?_⟩ <;> simp [changeEffect, hfr, hwid]

/-- Witness for C6 at a concrete workspace, graphs and session model. -/
theorem C6_debounce_witness :
    (({ initAutoSave (some "w") with isFirstRender := false } : AutoSaveModel).isFirstRender = false)
    ∧ (({ initAutoSave (some "w") with isFirstRender := false } : AutoSaveModel).workspaceId.isSome)
    ∧ (runToQuiescence 5000 (initAutoSave (some "w"))
        [(0, { nodes := [], edges := [] }),
         (1000, { nodes := defaultNodes, edges := [] }),
         (2000, { nodes := [], edges := [] })]).persistLog
      = [(7000, toBackendFormat
            ({ nodes := [], edges := [] } : CanvasGraph).nodes
            ({ nodes := [], edges := [] } : CanvasGraph).edges)] :=
  ⟨rfl, rfl,
    (C6_debounce "w" { nodes := [], edges := [] } { nodes := defaultNodes, edges := [] }
      { nodes := [], edges := [] } 0 { nodes := [], edges := [] }
      { initAutoSave (some "w") with isFirstRender := false } rfl rfl).1⟩

/-- Claim C7: the save-status state machine starts in `saved`; a graph
change moves any state to `unsaved` except `saving`, which it leaves
entirely unchanged; beginning a persist attempt moves the state to
`saving` (both as the bare store action and as performed by the
controller's `doSave`); a successful persist yields `saved`, records the
completion timestamp and clears the stored error; a failed persist
yields `error` and records the message; and no state is terminal: from
every state some transition changes the status. -/
theorem C7_save_status_machine :
    initialWorkspaceState.saveStatus = SaveStatus.saved
    ∧ (∀ s : WorkspaceState, (markUnsaved s).saveStatus
        = if s.saveStatus = SaveStatus.saving then s.saveStatus else SaveStatus.unsaved)
    ∧ (∀ s : WorkspaceState, s.saveStatus = SaveStatus.saving → markUnsaved s = s)
    ∧ (∀ s : WorkspaceState, (setSaveStatus SaveStatus.saving s).saveStatus = SaveStatus.saving)
    ∧ (∀ (t : Nat) (g : CanvasGraph) (m : AutoSaveModel), m.workspaceId.isSome →
        (doSave t g m).store.saveStatus = SaveStatus.saving)
    ∧ (∀ (s : WorkspaceState) (t : Nat),
        (markSaved t s).saveStatus = SaveStatus.saved
          ∧ (markSaved t s).lastSavedAt = some t ∧ (markSaved t s).lastError = none)
    ∧ (∀ (s : WorkspaceState) (e : String),
        (markError e s).saveStatus = SaveStatus.error ∧ (markError e s).lastError = some e)
    ∧ (∀ s : WorkspaceState, ∃ u : WorkspaceState,
        StoreStep s u ∧ u.saveStatus ≠ s.saveStatus) := by
  refine ⟨rfl, ?_, ?_, fun s => rfl, ?_, fun s t => ⟨rfl, rfl, rfl⟩,
    fun s e => ⟨rfl, rfl⟩, ?_⟩
  · intro s
    by_cases h : s.saveStatus = SaveStatus.saving <;> simp [markUnsaved, h]
  · intro s h
    simp [markUnsaved, h]
  · intro t g m h
    obtain ⟨wid, hwid⟩ := Option.isSome_iff_exists.mp h
    simp [doSave, hwid, setSaveStatus]
  · intro s
    cases h : s.saveStatus with
    | saved => exact ⟨markUnsaved s, StoreStep.change s, by simp [markUnsaved, h]⟩
    | saving => exact ⟨markSaved 0 s, StoreStep.succeed s 0, by simp [markSaved, h]⟩
    | unsaved => exact ⟨setSaveStatus SaveStatus.saving s, StoreStep.beginSave s,
        by simp [setSaveStatus, h]⟩
    | error => exact ⟨markUnsaved s, StoreStep.change s, by simp [markUnsaved, h]⟩

/-- Witness for C7: the in-flight suppression conjunct applied to a
concrete store state in `saving`. -/
theorem C7_save_status_machine_witness :
    (({ workspaceId := none, saveStatus := SaveStatus.saving, lastSavedAt := none,
        lastError := none } : WorkspaceState).saveStatus = SaveStatus.saving)
    ∧ markUnsaved
        { workspaceId := none, saveStatus := SaveStatus.saving, lastSavedAt := none,
          lastError := none }
      = { workspaceId := none, saveStatus := SaveStatus.saving, lastSavedAt := none,
          lastError := none } :=
  ⟨rfl, C7_save_status_machine.2.2.1
    { workspaceId := none, saveStatus := SaveStatus.saving, lastSavedAt := none,
      lastError := none } rfl⟩

/-- Counterexample to claim C8 as stated: in a run where a debounced
auto-save fires and its transport call completes successfully (the
persist log holds exactly one attempt and the store ends in `saved`),
the host onSave callback is never invoked — the auto-save completion
does not funnel through the mount-time callback. -/
theorem C8_counterexample :
    (fun m : AutoSaveModel => (m.persistLog.length, m.store.saveStatus, m.onSaveLog))
      (completeSave 6000 true "" (runToQuiescence 5000 (initAutoSave (some "w"))
        [(0, { nodes := [], edges := [] }), (1000, { nodes := defaultNodes, edges := [] })]))
      = (1, SaveStatus.saved, []) := rfl

/-- Claim C8 as amended: the onSave callback supplied at mount time is
invoked synchronously with the current graph when the explicit save
action runs; the debounced auto-save path — both the timer firing and
the transport call completing — never invokes it, so only the explicit
save action funnels through the callback. -/
theorem C8_amended_onSave_only_explicit :
    (∀ (t : Nat) (g : CanvasGraph) (m : AutoSaveModel),
      (handleSave t g true m).onSaveLog = m.onSaveLog ++ [g])
    ∧ (∀ m : AutoSaveModel, (fireTimer m).onSaveLog = m.onSaveLog)
    ∧ (∀ (now : Nat) (ok : Bool) (e : String) (m : AutoSaveModel),
        (completeSave now ok e m).onSaveLog = m.onSaveLog) := by
  refine ⟨?_, ?_, ?_⟩
  · intro t g m
    cases h : m.workspaceId <;> simp [handleSave, h, saveNow, doSave]
  · intro m
    cases h : m.timer with
    | none => simp [fireTimer, h]
    | some p =>
      cases h2 : m.workspaceId <;> simp [fireTimer, h, doSave, h2]
  · intro now ok e m
    cases h : m.inFlight <;> simp [completeSave, h]

/-- Counterexample to claim C9 as stated: two explicit save actions with
no transport completion in between leave two in-flight persist attempts
at once, violating the at-most-one in-flight rule. -/
theorem C9_counterexample :
    (handleSave 10 { nodes := defaultNodes, edges := [] } true
        (handleSave 0 { nodes := [], edges := [] } true (initAutoSave (some "w")))).inFlight.length
      = 2 := rfl

/-- Claim C9 as amended: an explicit save-now request never cancels an
in-flight persist attempt — the in-flight queue keeps every earlier call
— but it does start an additional transport call rather than being
treated as satisfied by the in-flight one, so more than one persist
attempt can be in flight at a time. -/
theorem C9_amended_saveNow_appends (t : Nat) (g : CanvasGraph) (m : AutoSaveModel)
    (h : m.workspaceId.isSome) :
    (saveNow t g m).inFlight = m.inFlight ++ [toBackendFormat g.nodes g.edges]
    ∧ (saveNow t g m).persistLog = m.persistLog ++ [(t, toBackendFormat g.nodes g.edges)]
    ∧ (saveNow t g m).timer = none := by
  obtain ⟨wid, hwid⟩ := Option.isSome_iff_exists.mp h
  simp [saveNow, doSave, hwid]

/-- Witness for C9 as amended: a save-now arriving while one transport
call is already in flight. -/
theorem C9_amended_saveNow_appends_witness :
    ((doSave 0 { nodes := [], edges := [] } (initAutoSave (some "w"))).workspaceId.isSome)
    ∧ (saveNow 10 { nodes := defaultNodes, edges := [] }
          (doSave 0 { nodes := [], edges := [] } (initAutoSave (some "w")))).inFlight
        = (doSave 0 { nodes := [], edges := [] } (initAutoSave (some "w"))).inFlight
            ++ [toBackendFormat
                  ({ nodes := defaultNodes, edges := [] } : CanvasGraph).nodes
                  ({ nodes := defaultNodes, edges := [] } : CanvasGraph).edges] :=
  ⟨rfl,
    (C9_amended_saveNow_appends 10 { nodes := defaultNodes, edges := [] }
      (doSave 0 { nodes := [], edges := [] } (initAutoSave (some "w"))) rfl).1⟩

/-- Convenience lemma: `setGraph` always stores the supplied graph as
the module snapshot, whether or not a root is mounted. -/
theorem setGraph_currentGraph (g : InitialGraphArg) (s : ModuleState) :
    (setGraph g s).currentGraph = g := by
  by_cases h : s.currentRoot <;> simp [setGraph, h]

/-- Claim C10: whenever the graph handed to the App resolves to an empty
node list — no initialGraph, an editor graph or backend workspace with
zero nodes, or a setGraph re-render with empty nodes — the rendered
graph substitutes the single default starter node while keeping the
supplied edge list unchanged, whereas the module snapshot returned by
`getGraph` keeps the original empty-node graph; hence for empty nodes
with non-empty edges the rendered graph contains edges whose endpoints
are not among its nodes, and `getGraph` and the rendered state differ. -/
theorem C10_empty_nodes_substitution (rnd : Nat → ℚ × ℚ) (g : CanvasGraph)
    (w : WorkspaceDetailData) (s : ModuleState)
    (hg : g.nodes = []) (hw : (fromBackendFormat rnd w).nodes = []) :
    resolveInitialGraph rnd none = { nodes := defaultNodes, edges := defaultEdges }
    ∧ resolveInitialGraph rnd (some (InitialGraphArg.editor g))
        = { nodes := defaultNodes, edges := g.edges }
    ∧ resolveInitialGraph rnd (some (InitialGraphArg.backend w))
        = { nodes := defaultNodes, edges := (fromBackendFormat rnd w).edges }
    ∧ renderedGraph rnd (setGraph (InitialGraphArg.editor g) s)
        = { nodes := defaultNodes, edges := g.edges }
    ∧ getGraph (setGraph (InitialGraphArg.editor g) s) = InitialGraphArg.editor g
    ∧ (∃ gg : CanvasGraph, gg.nodes = []
        ∧ (∃ e ∈ (renderedGraph rnd (setGraph (InitialGraphArg.editor gg) s)).edges,
            ∀ n ∈ (renderedGraph rnd (setGraph (InitialGraphArg.editor gg) s)).nodes,
              n.id ≠ e.source ∧ n.id ≠ e.target)
        ∧ InitialGraphArg.editor (renderedGraph rnd (setGraph (InitialGraphArg.editor gg) s))
            ≠ getGraph (setGraph (InitialGraphArg.editor gg) s)) := by
  have hge : g.nodes.isEmpty = true := by simp [hg]
  have hwe : (fromBackendFormat rnd w).nodes.isEmpty = true := by simp [hw]
  refine ⟨rfl, ?_, ?_, ?_, ?_, ?_⟩
  · simp [resolveInitialGraph, hge]
  · simp [resolveInitialGraph, hwe]
  · simp [renderedGraph, setGraph_currentGraph, resolveInitialGraph, hge]
  · simp [getGraph, setGraph_currentGraph]
  · refine ⟨{ nodes := [], edges := [{ id := "e1", source := "a", target := "b", type := none }] },
      rfl, ?_, ?_⟩
    · refine ⟨{ id := "e1", source := "a", target := "b", type := none }, ?_, ?_⟩
      · simp [renderedGraph, setGraph_currentGraph, resolveInitialGraph]
      · intro n hn
        simp [renderedGraph, setGraph_currentGraph, resolveInitialGraph, defaultNodes] at hn
        subst hn
        exact ⟨by decide, by decide⟩
    · simp [renderedGraph, setGraph_currentGraph, resolveInitialGraph, getGraph]
      decide

/-- Witness for C10 at a concrete empty-node graph with one edge, an
empty backend workspace and the initial module state. -/
theorem C10_empty_nodes_substitution_witness :
    (({ nodes := [], edges := [{ id := "e9", source := "x", target := "y", type := none }] }
          : CanvasGraph).nodes = [])
    ∧ ((fromBackendFormat (fun _ => ((0 : ℚ), (0 : ℚ)))
          { workspace_id := "ws2", name := "w", description := none, nodes := none,
            edges := none, created_at := "", updated_at := "" }).nodes = [])
    ∧ renderedGraph (fun _ => ((0 : ℚ), (0 : ℚ)))
        (setGraph (InitialGraphArg.editor
            { nodes := [], edges := [{ id := "e9", source := "x", target := "y", type := none }] })
          initModuleState)
      = { nodes := defaultNodes,
          edges := ({ nodes := [], edges := [{ id := "e9", source := "x", target := "y", type := none }] }
              : CanvasGraph).edges } :=
  ⟨rfl, rfl,
    ((((C10_empty_nodes_substitution (fun _ => ((0 : ℚ), (0 : ℚ)))
      { nodes := [], edges := [{ id := "e9", source := "x", target := "y", type := none }] }
      { workspace_id := "ws2", name := "w", description := none, nodes := none,
        edges := none, created_at := "", updated_at := "" }
      initModuleState rfl rfl).2).2).2).1⟩
